import Mathlib

set_option maxHeartbeats 1000000

/-! Verification development for the bennu authentication subsystem
(Go, chi router over mongo). The auth handlers of src/handlers/auth.go
are embedded shallowly: the store is a list of user records, the
bcrypt collaborator is a parameter, and each handler is a function from
decoded request data and store contents to a rendered response. The
token components the spec describes (Token Issuer, Verification Token
Registry) have no implementation under src — the corresponding handlers
are empty stubs — so they are modelled from the spec where a claim needs
them. -/

/-- User credential record (the models.User fields used by
src/handlers/auth.go and spec section 3): opaque id, email, password
hash, verified flag, created-at and updated-at timestamps. The models
package is not under src; the fields follow the handler's accesses
(user.Password, user.Verified, user.CreatedAt, user.UpdatedAt) and spec
section 3. Timestamps and ids are modelled as naturals. -/
structure User where
  id : Nat
  email : String
  password : String
  verified : Bool
  createdAt : Nat
  updatedAt : Nat
  deriving Repr, DecidableEq

/-- HTTP cookie as it would be set on the response writer; Login never
sets one (the refresh-cookie write is a TODO comment in the source). -/
structure Cookie where
  name : String
  value : String
  httpOnly : Bool
  secure : Bool
  deriving Repr, DecidableEq

/-- Rendered HTTP response: status code, the JSON body as key/value
pairs (res.JSON), and any cookies set on the writer. -/
structure Response where
  status : Nat
  body : List (String × String)
  cookies : List Cookie
  deriving Repr, DecidableEq

/-- Modelled from the spec: res.ErrDecode of the horus collaborator
(not under src) renders a ValidationError, status 400 (spec section 7). -/
def errDecode : Response :=
  { status := 400, body := [("error", "decode error")], cookies := [] }

/-- Modelled from the spec: res.ErrBadRequest (horus, not under src)
renders status 400 with the underlying error's message. -/
def errBadRequest (msg : String) : Response :=
  { status := 400, body := [("error", msg)], cookies := [] }

/-- Modelled from the spec: res.ErrNotFound (horus, not under src)
renders status 404 with the underlying error's message. -/
def errNotFound (msg : String) : Response :=
  { status := 404, body := [("error", msg)], cookies := [] }

/-- Modelled from the spec: res.Err(err, http.StatusInternalServerError)
(horus, not under src) renders the given InternalError status 500 with
the error's message (spec section 7). -/
def errInternal (msg : String) : Response :=
  { status := 500, body := [("error", msg)], cookies := [] }

/-- Password hashing collaborator (golang.org/x/crypto/bcrypt, outside
the repository): hash models bcrypt.GenerateFromPassword with cost 14
(salted, may fail; the salt nondeterminism is captured by quantifying
theorems over Crypto), verify models whether
bcrypt.CompareHashAndPassword(hash, password) returns nil. -/
structure Crypto where
  hash : String → Except String String
  verify : String → String → Bool

/-- Credential store contents: the mongo users collection as a list of
records. -/
abbrev Store := List User

/-- Modelled from the spec: the persistence collaborator's
findOne(filter) operation (spec section 6; the dao package is not under
src) returns a record matching the filter predicate, or not-found. -/
def findOne (p : User → Bool) (s : Store) : Option User := s.find? p

/-- Login's where-filter from src/handlers/auth.go lines 63-70: the
logical AND of email = payload.Email and verified = true. -/
def loginFilter (email : String) (u : User) : Bool :=
  u.email == email && u.verified

/-- Fresh id for an inserted record. Modelled from the spec: the
persistence collaborator's create(record) assigns a fresh opaque id. -/
def nextId (s : Store) : Nat := s.length

/-- Modelled from the spec: the persistence collaborator's
create(record) operation over the user collection (spec section 6, dao
not under src); duplicate registration is rejected (spec section 4.5).
On success the record is inserted with a fresh id and the id returned. -/
def createUser (s : Store) (u : User) : Except String (Nat × Store) :=
  if s.any (fun v => v.email == u.email) then Except.error "duplicate email"
  else Except.ok (nextId s, s ++ [{ u with id := nextId s }])

/-- Decoded body of POST /auth/login (loginRequest in the source). -/
structure loginRequest where
  email : String
  password : String
  deriving Repr, DecidableEq

/-- AuthHandler.Login after a successful body decode
(src/handlers/auth.go lines 63-87): findOne on email AND verified=true,
rendering ErrBadRequest (400) with the store error on a miss,
ErrNotFound (404) with message "invalid username or password" on a
bcrypt mismatch, and otherwise 200 with the literal body entry
token = "token" and no cookie (token issuance and the cookie write are
TODO comments in the source). -/
def login (c : Crypto) (s : Store) (payload : loginRequest) : Response :=
  match findOne (loginFilter payload.email) s with
  | none => errBadRequest "mongo: no documents in result"
  | some user =>
    if c.verify user.password payload.password then
      { status := 200, body := [("token", "token")], cookies := [] }
    else errNotFound "invalid username or password"

/-- AuthHandler.Login including the body-decode step
(src/handlers/auth.go lines 51-62): a missing or malformed body renders
a decode error and the handler returns early. -/
def loginHandler (c : Crypto) (s : Store) (body : Option loginRequest) : Response :=
  match body with
  | none => errDecode
  | some payload => login c s payload

/-- Record persisted by Register (src/handlers/auth.go lines 101-110):
the decoded user with the verified flag overwritten to false, both
timestamps overwritten with the current time, and the password replaced
by the bcrypt hash. -/
def registerRecord (now : Nat) (hp : String) (user : User) : User :=
  { user with verified := false, createdAt := now, updatedAt := now, password := hp }

/-- AuthHandler.Register after a successful body decode
(src/handlers/auth.go lines 101-121): overwrite the verified flag with
false and both timestamps with the current time, hash the request
password with bcrypt (500 on hashing failure, store untouched), store
the hash in place of the plaintext, create the record (400 on store
failure, store untouched), then render 201 with the new id. The source
sets the fields before hashing; the fields are disjoint from the
password, so the hash input is the request's plaintext password. -/
def register (c : Crypto) (now : Nat) (s : Store) (user : User) : Response × Store :=
  match c.hash user.password with
  | Except.error e => (errInternal e, s)
  | Except.ok hp =>
    match createUser s (registerRecord now hp user) with
    | Except.error e => (errBadRequest e, s)
    | Except.ok (id, s2) =>
      ({ status := 201, body := [("id", toString id)], cookies := [] }, s2)

/-- AuthHandler.ResetPassword (src/handlers/auth.go lines 123-125): the
handler body is empty, so it reads no state and writes nothing to the
response; Go's net/http then responds 200 with an empty body. -/
def resetPassword (_s : Store) (_email : String) : Response :=
  { status := 200, body := [], cookies := [] }

/-- Modelled from the spec: the Session / Refresh Token Record of spec
section 3. The Token Issuer component is not under src
(AuthHandler.TokenRefresh and AuthHandler.Logout are empty stubs).
Token values are modelled as naturals. -/
structure Session where
  userId : Nat
  value : Nat
  issuedAt : Nat
  expiresAt : Nat
  revoked : Bool
  deriving Repr, DecidableEq

/-- AuthHandler.Logout (src/handlers/auth.go lines 139-141): the handler
body is empty; Go's net/http responds 200 with an empty body, and no
session state is touched. -/
def logout (ss : List Session) : Response × List Session :=
  ({ status := 200, body := [], cookies := [] }, ss)

/-- Fresh session-token value: strictly larger than every value present,
so token values are never reused (spec section 3 uniqueness invariant). -/
def freshValue (ss : List Session) : Nat :=
  (ss.map (fun s => s.value)).foldr max 0 + 1

/-- Modelled from the spec: redeemSession of the Token Issuer (spec
section 4.2, not under src): look the session up by token value; fail if
absent, revoked or expired; otherwise revoke the presented token and
issue a fresh one in the same call, returning the user id with the new
refresh-token value. ttl is the configured session lifetime. -/
def redeemSession (ttl : Nat) (ss : List Session) (tok : Nat) (now : Nat) :
    Option (Nat × Nat) × List Session :=
  match ss.find? (fun s => s.value == tok) with
  | none => (none, ss)
  | some s =>
    if s.revoked || decide (s.expiresAt ≤ now) then (none, ss)
    else
      (some (s.userId, freshValue ss),
        ss.map (fun t => if t.value == tok then { t with revoked := true } else t)
          ++ [{ userId := s.userId, value := freshValue ss, issuedAt := now,
                expiresAt := now + ttl, revoked := false }])

/-- Modelled from the spec: revokeSession of the Token Issuer (spec
section 4.2, not under src): mark any session carrying the token value
revoked; total, so revoking an unknown token is not an error. -/
def revokeSession (ss : List Session) (tok : Nat) : List Session :=
  ss.map (fun s => if s.value == tok then { s with revoked := true } else s)

/-- Purpose tag of a verification token (spec section 3). -/
inductive Purpose where
  | emailVerify
  | passwordReset
  deriving Repr, DecidableEq

/-- Modelled from the spec: the Verification Token Record of spec
section 3. The Single-Use Verification Token Registry is not under src
(AuthHandler.VerifyEmail is an empty stub). -/
structure VToken where
  userId : Nat
  value : Nat
  purpose : Purpose
  expiresAt : Nat
  consumed : Bool
  deriving Repr, DecidableEq

/-- Modelled from the spec: redeem(token, purpose) of the Verification
Token Registry (spec section 4.3, not under src): atomically check
existence, purpose match, non-expiry and non-consumption, then set the
consumed flag; every failure mode maps to invalid (none) and leaves the
registry unchanged. -/
def redeemVToken (ts : List VToken) (tok : Nat) (p : Purpose) (now : Nat) :
    Option Nat × List VToken :=
  match ts.find? (fun t => t.value == tok) with
  | none => (none, ts)
  | some t =>
    if t.purpose == p && decide (now < t.expiresAt) && !t.consumed then
      (some t.userId,
        ts.map (fun u => if u.value == tok then { u with consumed := true } else u))
    else (none, ts)

/-- Concrete hashing policy for witnesses: hash tags the plaintext,
verify checks the tag. -/
def cryptoEx : Crypto where
  hash := fun p => Except.ok ("h:" ++ p)
  verify := fun h p => h == "h:" ++ p

/-- Hashing policy whose hash always fails, for the failure path. -/
def cryptoFail : Crypto where
  hash := fun _ => Except.error "bcrypt: resource exhaustion"
  verify := fun _ _ => false

/-- Concrete store with one verified user. -/
def usersEx : Store :=
  [{ id := 1, email := "a@b.com", password := "h:p1", verified := true,
     createdAt := 0, updatedAt := 0 }]

/-- Concrete store with two verified users. -/
def usersEx2 : Store :=
  usersEx ++
    [{ id := 2, email := "c@d.com", password := "h:p2", verified := true,
       createdAt := 0, updatedAt := 0 }]

/-- Concrete session store with one live session. -/
def sessEx : List Session :=
  [{ userId := 1, value := 5, issuedAt := 0, expiresAt := 100, revoked := false }]

/-- Claim C1: the two negative login sub-checks are claimed to render one
undifferentiated invalid-credentials response with the same status class
and message. The code refutes this: an unknown email renders a 400
bad-request carrying the store error, while a wrong password for a
stored verified user renders a 404 with message
"invalid username or password" — a different status and a different
body, so the two sub-checks are externally distinguishable. -/
theorem login_distinguishes_failures :
    (login cryptoEx usersEx { email := "nobody@x.com", password := "p1" }).status = 400 ∧
    (login cryptoEx usersEx { email := "a@b.com", password := "wrong" }).status = 404 ∧
    login cryptoEx usersEx { email := "nobody@x.com", password := "p1" } ≠
      login cryptoEx usersEx { email := "a@b.com", password := "wrong" } := by
  refine ⟨by decide, by decide, by decide⟩

/-- Claim C3: a successful Login is claimed to carry the issued access
token for that user in the body and the refresh token in an HTTP-only
secure cookie. The code refutes this: two different users' successful
logins both render the constant body entry token = "token" and set no
cookie at all — no per-user access token is issued and no refresh cookie
exists (both are TODO comments in the source). -/
theorem login_placeholder_token :
    (login cryptoEx usersEx2 { email := "a@b.com", password := "p1" }).status = 200 ∧
    (login cryptoEx usersEx2 { email := "c@d.com", password := "p2" }).status = 200 ∧
    (login cryptoEx usersEx2 { email := "a@b.com", password := "p1" }).body =
      [("token", "token")] ∧
    (login cryptoEx usersEx2 { email := "c@d.com", password := "p2" }).body =
      [("token", "token")] ∧
    (login cryptoEx usersEx2 { email := "a@b.com", password := "p1" }).cookies = [] ∧
    (login cryptoEx usersEx2 { email := "c@d.com", password := "p2" }).cookies = [] := by
  refine ⟨by decide, by decide, by decide, by decide, by decide, by decide⟩

/-- Claim C5: when password hashing fails, Register renders status 500
and the store is unchanged — no record is created on this path. -/
theorem register_hash_failure (c : Crypto) (now : Nat) (s : Store) (user : User)
    (e : String) (h : c.hash user.password = Except.error e) :
    (register c now s user).1.status = 500 ∧ (register c now s user).2 = s := by
  unfold register
  rw [h]
  exact ⟨rfl, rfl⟩

/-- Claim C5 witness: a hashing policy that always fails, applied to a
concrete registration over the one-user store. -/
theorem register_hash_failure_witness :
    (register cryptoFail 42 usersEx
      { id := 0, email := "new@x.com", password := "p9", verified := false,
        createdAt := 0, updatedAt := 0 }).1.status = 500 ∧
    (register cryptoFail 42 usersEx
      { id := 0, email := "new@x.com", password := "p9", verified := false,
        createdAt := 0, updatedAt := 0 }).2 = usersEx :=
  register_hash_failure cryptoFail 42 usersEx
    { id := 0, email := "new@x.com", password := "p9", verified := false,
      createdAt := 0, updatedAt := 0 }
    "bcrypt: resource exhaustion" rfl

/-- Claim C8: for an email that exists in the store and one that does
not, the reset-password responses are identical and both 200: the stub
handler writes nothing, so Go renders the default 200 empty response in
both cases and nothing about email existence leaks. -/
theorem resetPassword_uniform (s : Store) (e1 e2 : String)
    (_h1 : ∃ u ∈ s, u.email = e1) (_h2 : ∀ u ∈ s, u.email ≠ e2) :
    resetPassword s e1 = resetPassword s e2 ∧ (resetPassword s e1).status = 200 :=
  ⟨rfl, rfl⟩

/-- Claim C8 witness: the stored email versus an absent one over the
concrete one-user store. -/
theorem resetPassword_uniform_witness :
    resetPassword usersEx "a@b.com" = resetPassword usersEx "nobody@x.com" ∧
    (resetPassword usersEx "a@b.com").status = 200 :=
  resetPassword_uniform usersEx "a@b.com" "nobody@x.com" (by decide) (by decide)

/-- Equation for Login when the store lookup misses: the handler renders
the 400 bad-request with the store error. -/
theorem login_find_none (c : Crypto) (s : Store) (payload : loginRequest)
    (h : findOne (loginFilter payload.email) s = none) :
    login c s payload = errBadRequest "mongo: no documents in result" := by
  unfold login
  rw [h]

/-- Equation for Login when the store lookup returns a record: the
handler's behaviour reduces to the bcrypt comparison. -/
theorem login_find_some (c : Crypto) (s : Store) (payload : loginRequest) (u : User)
    (h : findOne (loginFilter payload.email) s = some u) :
    login c s payload =
      if c.verify u.password payload.password then
        { status := 200, body := [("token", "token")], cookies := [] }
      else errNotFound "invalid username or password" := by
  unfold login
  rw [h]

/-- Claim C2: Login renders a success (200) exactly when the body decodes
and some stored record carries the request email with verified = true
and the request password verifies against that record's stored hash;
every other case renders a failure. Emails are assumed unique in the
store (the spec section 3 invariant). -/
theorem login_success_iff (c : Crypto) (s : Store) (body : Option loginRequest)
    (hU : ∀ u ∈ s, ∀ v ∈ s, u.email = v.email → u = v) :
    (loginHandler c s body).status = 200 ↔
      ∃ p, body = some p ∧ ∃ u ∈ s, u.email = p.email ∧ u.verified = true ∧
        c.verify u.password p.password = true := by
  cases body with
  | none =>
    constructor
    · intro h
      simp [loginHandler, errDecode] at h
    · rintro ⟨p, hp, -⟩
      exact Option.noConfusion hp
  | some payload =>
    show (login c s payload).status = 200 ↔ _
    constructor
    · intro h
      cases hfind : findOne (loginFilter payload.email) s with
      | none =>
        rw [login_find_none c s payload hfind] at h
        simp [errBadRequest] at h
      | some u =>
        rw [login_find_some c s payload u hfind] at h
        have hfind2 : s.find? (loginFilter payload.email) = some u := hfind
        have hmem := List.mem_of_find?_eq_some hfind2
        have hflt := List.find?_some hfind2
        simp only [loginFilter, Bool.and_eq_true, beq_iff_eq] at hflt
        by_cases hv : c.verify u.password payload.password = true
        · exact ⟨payload, rfl, u, hmem, hflt.1, hflt.2, hv⟩
        · rw [if_neg hv] at h
          simp [errNotFound] at h
    · rintro ⟨p, hp, u, hmem, he, hver, hv⟩
      injection hp with hp
      subst hp
      cases hfind : findOne (loginFilter payload.email) s with
      | none =>
        have hnone : s.find? (loginFilter payload.email) = none := hfind
        rw [List.find?_eq_none] at hnone
        have : loginFilter payload.email u = true := by
          simp only [loginFilter, Bool.and_eq_true, beq_iff_eq]
          exact ⟨he, hver⟩
        exact absurd this (by simpa using hnone u hmem)
      | some w =>
        rw [login_find_some c s payload w hfind]
        have hfind2 : s.find? (loginFilter payload.email) = some w := hfind
        have hwmem := List.mem_of_find?_eq_some hfind2
        have hwflt := List.find?_some hfind2
        simp only [loginFilter, Bool.and_eq_true, beq_iff_eq] at hwflt
        have hwu : w = u := hU w hwmem u hmem (hwflt.1.trans he.symm)
        subst hwu
        rw [if_pos hv]

/-- Claim C2 witness: the concrete verified user logging in with the
matching password over the one-user store. -/
theorem login_success_iff_witness :
    (loginHandler cryptoEx usersEx
      (some { email := "a@b.com", password := "p1" })).status = 200 :=
  (login_success_iff cryptoEx usersEx
      (some { email := "a@b.com", password := "p1" }) (by decide)).mpr
    ⟨{ email := "a@b.com", password := "p1" }, rfl,
      { id := 1, email := "a@b.com", password := "h:p1", verified := true,
        createdAt := 0, updatedAt := 0 },
      by decide, rfl, rfl, by decide⟩

/-- Shape of a successful Register run: shared consequence of status 201
used by the registration claims. The store gained exactly the record
built from the request with the overwritten fields and the bcrypt hash,
and the body carries the new id. -/
theorem register_ok_shape (c : Crypto) (now : Nat) (s : Store) (user : User)
    (h : (register c now s user).1.status = 201) :
    ∃ hp, c.hash user.password = Except.ok hp ∧
      (register c now s user).2 =
        s ++ [{ registerRecord now hp user with id := nextId s }] ∧
      (register c now s user).1.body = [("id", toString (nextId s))] := by
  cases hh : c.hash user.password with
  | error e =>
    have hr : register c now s user = (errInternal e, s) := by
      unfold register
      rw [hh]
    rw [hr] at h
    simp [errInternal] at h
  | ok hp =>
    cases hd : s.any (fun v => v.email == (registerRecord now hp user).email) with
    | true =>
      have hr : register c now s user = (errBadRequest "duplicate email", s) := by
        simp [register, createUser, hh, hd]
      rw [hr] at h
      simp [errBadRequest] at h
    | false =>
      have hr : register c now s user =
          ({ status := 201, body := [("id", toString (nextId s))], cookies := [] },
            s ++ [{ registerRecord now hp user with id := nextId s }]) := by
        simp [register, createUser, hh, hd]
      exact ⟨hp, rfl, by rw [hr], by rw [hr]⟩

/-- Claim C4: a successful Register (status 201) created exactly one new
record: it has verified = false, its password field is the hashing
policy's output on the request plaintext (never the plaintext itself),
and the response is 201 carrying the new record's id. -/
theorem register_success (c : Crypto) (now : Nat) (s : Store) (user : User)
    (h : (register c now s user).1.status = 201) :
    ∃ hp, c.hash user.password = Except.ok hp ∧
      (register c now s user).2 =
        s ++ [{ registerRecord now hp user with id := nextId s }] ∧
      ({ registerRecord now hp user with id := nextId s } : User).verified = false ∧
      ({ registerRecord now hp user with id := nextId s } : User).password = hp ∧
      (register c now s user).1.body = [("id", toString (nextId s))] := by
  obtain ⟨hp, h1, h2, h3⟩ := register_ok_shape c now s user h
  exact ⟨hp, h1, h2, rfl, rfl, h3⟩

/-- Client-supplied record for the registration witnesses: it tries to
claim verified = true and its own timestamps. -/
def regUserEx : User :=
  { id := 0, email := "new@x.com", password := "p9", verified := true,
    createdAt := 999, updatedAt := 777 }

/-- Claim C4 witness: a concrete successful registration over the
one-user store. -/
theorem register_success_witness :
    ∃ hp, cryptoEx.hash regUserEx.password = Except.ok hp ∧
      (register cryptoEx 42 usersEx regUserEx).2 =
        usersEx ++ [{ registerRecord 42 hp regUserEx with id := nextId usersEx }] ∧
      ({ registerRecord 42 hp regUserEx with id := nextId usersEx } : User).verified = false ∧
      ({ registerRecord 42 hp regUserEx with id := nextId usersEx } : User).password = hp ∧
      (register cryptoEx 42 usersEx regUserEx).1.body =
        [("id", toString (nextId usersEx))] :=
  register_success cryptoEx 42 usersEx regUserEx (by decide)

/-- Claim C10: whenever Register persists a record (status 201), the
stored record has verified = false and both timestamps equal the server
time, whatever flag or timestamps the client supplied in the body. -/
theorem register_overwrites_client_fields (c : Crypto) (now : Nat) (s : Store)
    (user : User) (h : (register c now s user).1.status = 201) :
    ∃ r, (register c now s user).2 = s ++ [r] ∧
      r.verified = false ∧ r.createdAt = now ∧ r.updatedAt = now := by
  obtain ⟨hp, _, h2, _⟩ := register_ok_shape c now s user h
  exact ⟨_, h2, rfl, rfl, rfl⟩

/-- Claim C10 witness: the client-supplied record claims verified = true
with timestamps 999 and 777, yet the stored record is unverified with
both timestamps the server time 7. -/
theorem register_overwrites_client_fields_witness :
    ∃ r, (register cryptoEx 7 usersEx regUserEx).2 = usersEx ++ [r] ∧
      r.verified = false ∧ r.createdAt = 7 ∧ r.updatedAt = 7 :=
  register_overwrites_client_fields cryptoEx 7 usersEx regUserEx (by decide)

/-- Every element of a list of naturals is bounded by its foldr-max. -/
theorem le_foldr_max (l : List Nat) (x : Nat) (hx : x ∈ l) : x ≤ l.foldr max 0 := by
  induction l with
  | nil => cases hx
  | cons a t ih =>
    cases hx with
    | head => exact Nat.le_max_left _ _
    | tail _ h => exact Nat.le_trans (ih h) (Nat.le_max_right _ _)

/-- freshValue strictly exceeds every session-token value in the store,
so a freshly issued value is never a reuse. -/
theorem freshValue_gt (ss : List Session) (s : Session) (hs : s ∈ ss) :
    s.value < freshValue ss :=
  Nat.lt_succ_of_le (le_foldr_max _ _ (List.mem_map_of_mem (fun t => t.value) hs))

/-- Claim C6: redeeming a valid refresh token rotates it — the returned
refresh-token value differs from the presented one, and every later
redemption attempt with the old, now-revoked value fails. -/
theorem redeemSession_rotation (ttl : Nat) (ss : List Session) (tok now uid nv : Nat)
    (ss2 : List Session)
    (h : redeemSession ttl ss tok now = (some (uid, nv), ss2)) :
    nv ≠ tok ∧ ∀ now2, (redeemSession ttl ss2 tok now2).1 = none := by
  cases hfind : ss.find? (fun s => s.value == tok) with
  | none =>
    simp only [redeemSession, hfind] at h
    exact absurd h (by simp)
  | some s0 =>
    simp only [redeemSession, hfind] at h
    cases hc : (s0.revoked || decide (s0.expiresAt ≤ now)) with
    | true =>
      rw [if_pos hc] at h
      exact absurd h (by simp)
    | false =>
      rw [if_neg (by simp [hc])] at h
      injection h with h1 h2
      injection h1 with h1
      injection h1 with hu hnv
      subst h2
      subst hnv
      have hval : s0.value = tok := by
        have := List.find?_some hfind
        simpa [beq_iff_eq] using this
      have hmem := List.mem_of_find?_eq_some hfind
      refine ⟨?_, ?_⟩
      · rw [← hval]
        exact ne_of_gt (freshValue_gt ss s0 hmem)
      · intro now2
        have hfind2 : ((ss.map fun t : Session =>
              if t.value == tok then { t with revoked := true } else t) ++
            [({ userId := s0.userId, value := freshValue ss, issuedAt := now,
                expiresAt := now + ttl, revoked := false } : Session)]).find?
              (fun t => t.value == tok) = some { s0 with revoked := true } := by
          rw [List.find?_append]
          have hpe : ((fun t : Session => t.value == tok) ∘
              fun t : Session => if t.value == tok then { t with revoked := true } else t) =
              fun t : Session => t.value == tok := by
            funext t
            by_cases hv : (t.value == tok) = true
            · simp [Function.comp, hv]
            · simp [Function.comp, hv]
          rw [List.find?_map, hpe, hfind]
          simp [hval]
        simp only [redeemSession]
        rw [hfind2]
        simp

/-- Claim C6 witness: one live session with token value 5 redeemed at
time 10 under ttl 50: the rotated value is 6 and the old value 5 can
never be redeemed again. -/
theorem redeemSession_rotation_witness :
    (6 : Nat) ≠ 5 ∧ ∀ now2,
      (redeemSession 50
        [{ userId := 1, value := 5, issuedAt := 0, expiresAt := 100, revoked := true },
         { userId := 1, value := 6, issuedAt := 10, expiresAt := 60, revoked := false }]
        5 now2).1 = none :=
  redeemSession_rotation 50 sessEx 5 10 1 6
    [{ userId := 1, value := 5, issuedAt := 0, expiresAt := 100, revoked := true },
     { userId := 1, value := 6, issuedAt := 10, expiresAt := 60, revoked := false }]
    (by decide)

/-- Claim C7: a verification token redeems successfully at most once.
After a successful redemption, every further redemption of the same
value — any purpose, any time — is invalid; an expired token always
fails even if never consumed; and the successful redemption only ever
sets consumed flags (false to true), never resets one. -/
theorem redeemVToken_single_use (ts : List VToken) (tok : Nat) (p : Purpose)
    (now uid : Nat) (ts2 : List VToken)
    (h : redeemVToken ts tok p now = (some uid, ts2))
    (ts3 : List VToken) (tok3 : Nat) (p3 : Purpose) (now3 : Nat)
    (hexp : ∀ t ∈ ts3, t.value = tok3 → t.expiresAt ≤ now3) :
    (∀ p2 now2, (redeemVToken ts2 tok p2 now2).1 = none) ∧
    (redeemVToken ts3 tok3 p3 now3).1 = none ∧
    ∀ i, (h1 : i < ts.length) → (h2 : i < ts2.length) →
      (ts.get ⟨i, h1⟩).consumed = true → (ts2.get ⟨i, h2⟩).consumed = true := by
  cases hfind : ts.find? (fun t => t.value == tok) with
  | none =>
    simp only [redeemVToken, hfind] at h
    exact absurd h (by simp)
  | some t0 =>
    simp only [redeemVToken, hfind] at h
    cases hc : (t0.purpose == p && decide (now < t0.expiresAt) && !t0.consumed) with
    | false =>
      rw [if_neg (by simp [hc])] at h
      exact absurd h (by simp)
    | true =>
      rw [if_pos hc] at h
      injection h with h1 h2
      subst h2
      have hval : t0.value = tok := by
        have := List.find?_some hfind
        simpa [beq_iff_eq] using this
      refine ⟨?_, ?_, ?_⟩
      · intro p2 now2
        have hfind2 : ((ts.map fun u : VToken =>
              if u.value == tok then { u with consumed := true } else u).find?
              fun t => t.value == tok) = some { t0 with consumed := true } := by
          have hpe : ((fun t : VToken => t.value == tok) ∘
              fun u : VToken => if u.value == tok then { u with consumed := true } else u) =
              fun t : VToken => t.value == tok := by
            funext t
            by_cases hv : (t.value == tok) = true
            · simp [Function.comp, hv]
            · simp [Function.comp, hv]
          rw [List.find?_map, hpe, hfind]
          simp [hval]
        simp only [redeemVToken]
        rw [hfind2]
        simp
      · cases hfind3 : ts3.find? (fun t => t.value == tok3) with
        | none => simp [redeemVToken, hfind3]
        | some t3 =>
          have hv3 : t3.value = tok3 := by
            have := List.find?_some hfind3
            simpa [beq_iff_eq] using this
          have hle := hexp t3 (List.mem_of_find?_eq_some hfind3) hv3
          simp [redeemVToken, hfind3, Nat.not_lt.mpr hle]
      · intro i h1 h2 hcons
        simp only [List.get_eq_getElem] at hcons ⊢
        by_cases hv : ts[i].value = tok
        · simp [List.getElem_map, hv]
        · simp [List.getElem_map, hv]
          exact hcons

/-- Concrete unconsumed email-verify token for the witnesses. -/
def vtEx : VToken :=
  { userId := 7, value := 3, purpose := Purpose.emailVerify, expiresAt := 100,
    consumed := false }

/-- vtEx after its consumption. -/
def vtConsumedEx : VToken := { vtEx with consumed := true }

/-- Concrete expired, never-consumed password-reset token. -/
def vtExpiredEx : VToken :=
  { userId := 8, value := 4, purpose := Purpose.passwordReset, expiresAt := 5,
    consumed := false }

/-- Claim C7 witness: redeeming token value 3 at time 10 succeeds once
and then always fails; the expired token value 4 fails at time 9; the
consumed flag only moved false to true. -/
theorem redeemVToken_single_use_witness :
    (∀ p2 now2, (redeemVToken [vtConsumedEx] 3 p2 now2).1 = none) ∧
    (redeemVToken [vtExpiredEx] 4 Purpose.passwordReset 9).1 = none ∧
    (∀ i, (h1 : i < ([vtEx] : List VToken).length) →
      (h2 : i < ([vtConsumedEx] : List VToken).length) →
      (([vtEx] : List VToken).get ⟨i, h1⟩).consumed = true →
      (([vtConsumedEx] : List VToken).get ⟨i, h2⟩).consumed = true) :=
  redeemVToken_single_use [vtEx] 3 Purpose.emailVerify 10 7 [vtConsumedEx] (by decide)
    [vtExpiredEx] 4 Purpose.passwordReset 9 (by decide)

/-- Claim C9: Logout always renders 200 with no state change, and
revokeSession is idempotent — revoking twice leaves the same state as
revoking once, and revoking a token value no session carries changes
nothing (and is not an error, revokeSession being total). -/
theorem logout_revoke_idempotent (ss : List Session) (tok : Nat) :
    (logout ss).1.status = 200 ∧
    revokeSession (revokeSession ss tok) tok = revokeSession ss tok ∧
    ((∀ s ∈ ss, s.value ≠ tok) → revokeSession ss tok = ss) := by
  refine ⟨rfl, ?_, ?_⟩
  · unfold revokeSession
    rw [List.map_map]
    apply List.map_congr_left
    intro t _
    by_cases hv : (t.value == tok) = true
    · simp [Function.comp, hv]
    · simp [Function.comp, hv]
  · intro hnone
    unfold revokeSession
    have hid : ss.map (fun s => if s.value == tok then { s with revoked := true } else s) =
        ss.map id := by
      apply List.map_congr_left
      intro t ht
      have hne : (t.value == tok) = false := beq_eq_false_iff_ne.mpr (hnone t ht)
      simp [hne]
    rw [hid, List.map_id]

/-- Claim C9 witness: the one-session store, revoking the unknown token
value 9. -/
theorem logout_revoke_idempotent_witness :
    (logout sessEx).1.status = 200 ∧
    revokeSession (revokeSession sessEx 9) 9 = revokeSession sessEx 9 ∧
    revokeSession sessEx 9 = sessEx :=
  have h := logout_revoke_idempotent sessEx 9
  ⟨h.1, h.2.1, h.2.2 (by decide)⟩
